import Mathlib

/-!
Verification of the Monte Carlo lattice-update engine of the
IsingModel_NeuralNetwork repository: the lattice container (`State`),
the Ising physical model (`IsingModel`), the generic Metropolis sampler
(`MetropolisMethod`) and the topology-aware heat-bath sampler
(`IsingHeatBathMethod`), shallowly embedded from `src/isingmodel.h`
and `src/mathutil.h`.

The C++ lattice `State<N, M, bool>` stores an `N×M` array of booleans;
we embed the payload as a total function `ℕ → ℕ → Bool` together with
the dimensions `N M : ℕ` passed explicitly (the template parameters).
Exact integer quantities that the C++ code stores in `double` variables
but that are always integer-valued (spins, exchange energies with the
integer coupling `J`) are embedded as `ℤ`; genuinely real quantities
(the `tanh` heat-bath threshold) are embedded as `ℝ`.
-/

/-- Spin payload of `State<N, M, bool>`: the stored 2D bool array,
as a total function on coordinates (cells outside `N×M` are never
read by the embedded operations at in-range arguments). -/
abbrev StateGrid : Type := ℕ → ℕ → Bool

/-- Embedding of `IsingModel::isingSpin`: maps a boolean occupancy to spin `±1`.
The C++ returns `double`, but the value is always the integer `1` or `-1`. -/
def isingSpin (b : Bool) : ℤ := if b then 1 else -1

/-- Single indexed write `state[row][col] = value` on the embedded grid. -/
def setCell (s : StateGrid) (row col : ℕ) (v : Bool) : StateGrid :=
  fun i j => if i = row ∧ j = col then v else s i j

/-- Embedding of `IsingModel::energy` (the active `#else` branch of `isingmodel.h`):
`for r in [0, N-1) for c in [0, M-1):
   energy += -J * spin(r,c) * (spin(r,c+1) + spin(r+1,c))`. -/
def energy (N M : ℕ) (J : ℤ) (state : StateGrid) : ℤ :=
  ∑ r ∈ Finset.range (N - 1), ∑ c ∈ Finset.range (M - 1),
    -J * (isingSpin (state r c) *
      (isingSpin (state r (c + 1)) + isingSpin (state (r + 1) c)))

/-- Written from the spec sentence of claim C1, for comparison with
`energy`: `-J` times the sum of `spin·spin` over *every* rightward pair
`(r,c)-(r,c+1)` (all rows `r < N`) and *every* downward pair
`(r,c)-(r+1,c)` (all columns `c < M`) of the grid, each counted once. -/
def energyAllPairs (N M : ℕ) (J : ℤ) (state : StateGrid) : ℤ :=
  -J * ((∑ r ∈ Finset.range N, ∑ c ∈ Finset.range (M - 1),
          isingSpin (state r c) * isingSpin (state r (c + 1))) +
        (∑ r ∈ Finset.range (N - 1), ∑ c ∈ Finset.range M,
          isingSpin (state r c) * isingSpin (state (r + 1) c)))

/-- Sum of `spin·spin` over the rightward pairs the code's loop actually
visits: `(r,c)-(r,c+1)` with `r < N-1` and `c < M-1`. -/
def rightPairsTrunc (N M : ℕ) (state : StateGrid) : ℤ :=
  ∑ r ∈ Finset.range (N - 1), ∑ c ∈ Finset.range (M - 1),
    isingSpin (state r c) * isingSpin (state r (c + 1))

/-- Sum of `spin·spin` over the downward pairs the code's loop actually
visits: `(r,c)-(r+1,c)` with `r < N-1` and `c < M-1`. -/
def downPairsTrunc (N M : ℕ) (state : StateGrid) : ℤ :=
  ∑ r ∈ Finset.range (N - 1), ∑ c ∈ Finset.range (M - 1),
    isingSpin (state r c) * isingSpin (state (r + 1) c)

/-- The shared edge-mirror write sequence appearing verbatim both in
`IsingModel::randomAction` and in `IsingHeatBathMethod::update`:
`state[row][col] = value;
 if(row == 0) state[N-1][col] = value;
 else if(row == N-1) state[0][col] = value;
 if(col == 0) state[row][M-1] = value;
 else if(col == M-1) state[row][0] = value;`. -/
def writeWithMirrors (N M : ℕ) (s : StateGrid) (row col : ℕ) (v : Bool) :
    StateGrid :=
  let s1 := setCell s row col v
  let s2 :=
    if row = 0 then setCell s1 (N - 1) col v
    else if row = N - 1 then setCell s1 0 col v
    else s1
  if col = 0 then setCell s2 row (M - 1) v
  else if col = M - 1 then setCell s2 row 0 v
  else s2

/-- Embedding of `IsingModel::randomAction` after the two RNG draws have produced
`(row, col)`: flip the chosen site to `value = !state[row][col]` and
perform the edge-mirror writes. -/
def randomActionAt (N M : ℕ) (s : StateGrid) (row col : ℕ) : StateGrid :=
  writeWithMirrors N M s row col (!(s row col))

/-- The `enum class LatticeType` selecting the heat-bath topology. -/
inductive LatticeType where
  | Square
  | Triangle
  | Rhombus
  | Hexagonal
deriving DecidableEq

/-- Embedding of `IsingHeatBathMethod<LatticeType::Square>::neighborSpin`: sum of the
four axis-aligned neighbor spins with the explicit edge fold
`up = (row==0) ? N-2 : row-1`, `down = (row==N-1) ? 1 : row+1` (and the
column analogues); each axis contributes only when its size exceeds 2. -/
def squareNeighborSpin (N M : ℕ) (state : StateGrid) (row col : ℕ) : ℤ :=
  if 2 < N ∧ 2 < M then
    let up := if row = 0 then N - 2 else row - 1
    let down := if row = N - 1 then 1 else row + 1
    let left := if col = 0 then M - 2 else col - 1
    let right := if col = M - 1 then 1 else col + 1
    isingSpin (state up col) + isingSpin (state down col) +
      isingSpin (state row left) + isingSpin (state row right)
  else
    (if 2 < N then
      let up := if row = 0 then N - 2 else row - 1
      let down := if row = N - 1 then 1 else row + 1
      isingSpin (state up col) + isingSpin (state down col)
    else 0) +
    (if 2 < M then
      let left := if col = 0 then M - 2 else col - 1
      let right := if col = M - 1 then 1 else col + 1
      isingSpin (state row left) + isingSpin (state row right)
    else 0)

/-- Embedding of `IsingHeatBathMethod<LatticeType::Triangle>::neighborSpin`:
6-neighbor sum alternating with row parity, with the same edge fold. -/
def triangleNeighborSpin (N M : ℕ) (state : StateGrid) (row col : ℕ) : ℤ :=
  if 2 < N ∧ 2 < M then
    let up := if row = 0 then N - 2 else row - 1
    let down := if row = N - 1 then 1 else row + 1
    let left := if col = 0 then M - 2 else col - 1
    let right := if col = M - 1 then 1 else col + 1
    if row % 2 = 0 then
      isingSpin (state up col) + isingSpin (state up right) +
        isingSpin (state row left) + isingSpin (state row right) +
        isingSpin (state down col) + isingSpin (state down right)
    else
      isingSpin (state up left) + isingSpin (state up col) +
        isingSpin (state row left) + isingSpin (state row right) +
        isingSpin (state down left) + isingSpin (state down col)
  else
    (if 2 < N then
      let up := if row = 0 then N - 2 else row - 1
      let down := if row = N - 1 then 1 else row + 1
      isingSpin (state up col) + isingSpin (state down col)
    else 0) +
    (if 2 < M then
      let left := if col = 0 then M - 2 else col - 1
      let right := if col = M - 1 then 1 else col + 1
      isingSpin (state row left) + isingSpin (state row right)
    else 0)

/-- Embedding of `IsingHeatBathMethod<LatticeType::Rhombus>::neighborSpin`:
4-neighbor sum alternating with row parity, with the same edge fold. -/
def rhombusNeighborSpin (N M : ℕ) (state : StateGrid) (row col : ℕ) : ℤ :=
  if 2 < N ∧ 2 < M then
    let up := if row = 0 then N - 2 else row - 1
    let down := if row = N - 1 then 1 else row + 1
    let left := if col = 0 then M - 2 else col - 1
    let right := if col = M - 1 then 1 else col + 1
    if row % 2 = 0 then
      isingSpin (state up col) + isingSpin (state up right) +
        isingSpin (state down col) + isingSpin (state down right)
    else
      isingSpin (state up left) + isingSpin (state up col) +
        isingSpin (state down left) + isingSpin (state down col)
  else
    (if 2 < N then
      let up := if row = 0 then N - 2 else row - 1
      let down := if row = N - 1 then 1 else row + 1
      isingSpin (state up col) + isingSpin (state down col)
    else 0) +
    (if 2 < M then
      let left := if col = 0 then M - 2 else col - 1
      let right := if col = M - 1 then 1 else col + 1
      isingSpin (state row left) + isingSpin (state row right)
    else 0)

/-- Embedding of `IsingHeatBathMethod<LatticeType::Hexagonal>::neighborSpin`:
3-neighbor sum selected by `row mod 4`, with the same edge fold. -/
def hexagonalNeighborSpin (N M : ℕ) (state : StateGrid) (row col : ℕ) : ℤ :=
  if 2 < N ∧ 2 < M then
    let up := if row = 0 then N - 2 else row - 1
    let down := if row = N - 1 then 1 else row + 1
    let left := if col = 0 then M - 2 else col - 1
    let right := if col = M - 1 then 1 else col + 1
    if row % 4 = 0 then
      isingSpin (state up col) + isingSpin (state down col) +
        isingSpin (state down right)
    else if row % 4 = 1 then
      isingSpin (state up right) + isingSpin (state up col) +
        isingSpin (state down col)
    else if row % 4 = 2 then
      isingSpin (state up col) + isingSpin (state down left) +
        isingSpin (state down col)
    else
      isingSpin (state up col) + isingSpin (state up right) +
        isingSpin (state down col)
  else
    (if 2 < N then
      let up := if row = 0 then N - 2 else row - 1
      let down := if row = N - 1 then 1 else row + 1
      isingSpin (state up col) + isingSpin (state down col)
    else 0) +
    (if 2 < M then
      let left := if col = 0 then M - 2 else col - 1
      let right := if col = M - 1 then 1 else col + 1
      isingSpin (state row left) + isingSpin (state row right)
    else 0)

/-- Compile-time dispatch of the four `neighborSpin` template
specializations on the `LatticeType` template argument. -/
def neighborSpin (t : LatticeType) (N M : ℕ) (state : StateGrid)
    (row col : ℕ) : ℤ :=
  match t with
  | .Square => squareNeighborSpin N M state row col
  | .Triangle => triangleNeighborSpin N M state row col
  | .Rhombus => rhombusNeighborSpin N M state row col
  | .Hexagonal => hexagonalNeighborSpin N M state row col

/-- Written from the spec sentence of claim C5: the explicit periodic
fold for the "previous" row/column index — the previous neighbor of
index 0 is `size-2`, every other index maps to `idx-1`. -/
def foldPrev (size idx : ℕ) : ℕ := if idx = 0 then size - 2 else idx - 1

/-- Written from the spec sentence of claim C5: the explicit periodic
fold for the "next" row/column index — the next neighbor of the last
index `size-1` is 1, every other index maps to `idx+1`. -/
def foldNext (size idx : ℕ) : ℕ := if idx = size - 1 then 1 else idx + 1

/-- The four topologies' neighbor sums re-expressed with every index
computation routed through `foldPrev`/`foldNext`, for comparison with
the code-derived `neighborSpin` (claim C5). -/
def neighborSpinFold (t : LatticeType) (N M : ℕ) (state : StateGrid)
    (row col : ℕ) : ℤ :=
  let up := foldPrev N row
  let down := foldNext N row
  let left := foldPrev M col
  let right := foldNext M col
  if 2 < N ∧ 2 < M then
    match t with
    | .Square =>
        isingSpin (state up col) + isingSpin (state down col) +
          isingSpin (state row left) + isingSpin (state row right)
    | .Triangle =>
        if row % 2 = 0 then
          isingSpin (state up col) + isingSpin (state up right) +
            isingSpin (state row left) + isingSpin (state row right) +
            isingSpin (state down col) + isingSpin (state down right)
        else
          isingSpin (state up left) + isingSpin (state up col) +
            isingSpin (state row left) + isingSpin (state row right) +
            isingSpin (state down left) + isingSpin (state down col)
    | .Rhombus =>
        if row % 2 = 0 then
          isingSpin (state up col) + isingSpin (state up right) +
            isingSpin (state down col) + isingSpin (state down right)
        else
          isingSpin (state up left) + isingSpin (state up col) +
            isingSpin (state down left) + isingSpin (state down col)
    | .Hexagonal =>
        if row % 4 = 0 then
          isingSpin (state up col) + isingSpin (state down col) +
            isingSpin (state down right)
        else if row % 4 = 1 then
          isingSpin (state up right) + isingSpin (state up col) +
            isingSpin (state down col)
        else if row % 4 = 2 then
          isingSpin (state up col) + isingSpin (state down left) +
            isingSpin (state down col)
        else
          isingSpin (state up col) + isingSpin (state up right) +
            isingSpin (state down col)
  else
    (if 2 < N then isingSpin (state up col) + isingSpin (state down col)
     else 0) +
    (if 2 < M then isingSpin (state row left) + isingSpin (state row right)
     else 0)

/-- The degenerate-axis branch common to all four `neighborSpin`
specializations (taken when `N ≤ 2` or `M ≤ 2`): the folded vertical
neighbor pair contributes only when `N > 2`, the folded horizontal pair
only when `M > 2`, and the sum is 0 when both axes are degenerate. -/
def degenerateNeighborSpin (N M : ℕ) (state : StateGrid)
    (row col : ℕ) : ℤ :=
  (if 2 < N then
    let up := if row = 0 then N - 2 else row - 1
    let down := if row = N - 1 then 1 else row + 1
    isingSpin (state up col) + isingSpin (state down col)
  else 0) +
  (if 2 < M then
    let left := if col = 0 then M - 2 else col - 1
    let right := if col = M - 1 then 1 else col + 1
    isingSpin (state row left) + isingSpin (state row right)
  else 0)

/-- The heat-bath transition threshold computed by
`IsingHeatBathMethod::update`:
`0.5 * (std::tanh(ising->param.J / ising->kbT() * spin) + 1.0)`
with `kbT() = param.kb * param.T`. The `double` arithmetic is embedded
as exact real arithmetic. -/
noncomputable def heatBathProb (J kb T S : ℝ) : ℝ :=
  0.5 * (Real.tanh (J / (kb * T) * S) + 1)

/-- The boolean transition value of `IsingHeatBathMethod::update` once
the site `(row, col)` and the uniform draw `u` are fixed:
`value = (rand01(mt) < 0.5 * (tanh(J / kbT * neighborSpin) + 1.0))`. -/
noncomputable def heatBathFlag (t : LatticeType) (N M : ℕ) (J kb T : ℝ)
    (state : StateGrid) (row col : ℕ) (u : ℝ) : Bool :=
  if u < heatBathProb J kb T ((neighborSpin t N M state row col : ℤ) : ℝ)
  then true else false

/-- Embedding of `IsingHeatBathMethod::update` once the site `(row, col)` and the
uniform draw `u` are fixed: write the sampled value to the site and to
its periodic-boundary mirrors through the same edge-mirror sequence as
`IsingModel::randomAction`. No accept/reject decision occurs: the
written value depends only on the threshold comparison. -/
noncomputable def heatBathUpdate (t : LatticeType) (N M : ℕ)
    (J kb T : ℝ) (state : StateGrid) (row col : ℕ) (u : ℝ) : StateGrid :=
  writeWithMirrors N M state row col
    (heatBathFlag t N M J kb T state row col u)

/-- Abstract model of one `std::mt19937` engine: a deterministic state
machine over an abstract state `ℕ`, where a draw returns an output and
the advanced state. Only determinism and state advancement of the
engine are relevant to the claims; the concrete generator word
computations are standard-library internals outside this repository. -/
def mtNext (g : ℕ) : ℕ × ℕ := (g, g + 1)

/-- Model of `mt.seed(seed)`: the engine state determined by the seed. -/
def mtSeed (seed : ℕ) : ℕ := seed

/-- Model of the `inline static std::mt19937 mt` members: exactly one
engine per class — one for `State`, one for `IsingModel`, one for
`IsingHeatBathMethod` — shared by all instances of that class. -/
structure ClassStatics where
  stateMt : ℕ
  modelMt : ℕ
  heatBathMt : ℕ
deriving DecidableEq

/-- Embedding of `IsingModel::Parameter` with fields
`N, z, J : int` and `T, kb : double` (doubles as exact rationals). -/
structure IsingParameter where
  N : ℤ
  z : ℤ
  J : ℤ
  T : ℚ
  kb : ℚ
deriving DecidableEq

/-- An `IsingModel` instance: only its parameter block. The source
class has no per-instance RNG member — `mt` is `inline static`. -/
structure IsingModelInst where
  param : IsingParameter
deriving DecidableEq

/-- A `State<N, M, T>` instance viewed as an RNG client: its template
dimensions. The class RNG member is `inline static`. -/
structure LatticeStateInst where
  rows : ℕ
  cols : ℕ
deriving DecidableEq

/-- An `IsingHeatBathMethod<LatticeType>` instance viewed as an RNG
client: its topology tag. The class RNG member is `inline static`. -/
structure HeatBathInst where
  lattice : LatticeType
deriving DecidableEq

/-- Embedding of the static `IsingModel::setSeed`: reseeds the one
class-level model engine. -/
def modelSetSeed (seed : ℕ) (w : ClassStatics) : ClassStatics :=
  { w with modelMt := mtSeed seed }

/-- A draw performed through an `IsingModel` instance (as in
`randomAction` / `randomAccept`): it reads and advances the class-level
static engine, irrespective of which instance performs it. -/
def modelDraw (_inst : IsingModelInst) (w : ClassStatics) :
    ℕ × ClassStatics :=
  let p := mtNext w.modelMt
  (p.1, { w with modelMt := p.2 })

/-- A draw performed through a `State` instance (as in `initRand`):
it reads and advances the class-level static engine of `State`. -/
def stateDraw (_inst : LatticeStateInst) (w : ClassStatics) :
    ℕ × ClassStatics :=
  let p := mtNext w.stateMt
  (p.1, { w with stateMt := p.2 })

/-- A draw performed through an `IsingHeatBathMethod` instance (as in
`update`): it reads and advances that class's static engine. -/
def heatBathDraw (_inst : HeatBathInst) (w : ClassStatics) :
    ℕ × ClassStatics :=
  let p := mtNext w.heatBathMt
  (p.1, { w with heatBathMt := p.2 })

/-- The sequence of `k` successive draw outputs obtained through an
`IsingModel` instance. -/
def modelDrawSeq (inst : IsingModelInst) : ℕ → ClassStatics → List ℕ
  | 0, _ => []
  | k + 1, w =>
    let p := modelDraw inst w
    p.1 :: modelDrawSeq inst k p.2

/-- Embedding of `MetropolisMethod<...>::update`, generic over the
template-bound operations exactly as the C++ template is: `fE` the
energy functional, `fA` the mutation proposal applied to a copy of the
state (threading the RNG state `G`), `fAcc` the acceptance draw. The
energy comparison `nextEnergy < prevEnergy` short-circuits the
acceptance draw (the RNG is not advanced on unconditional accepts). -/
def metropolisUpdate {S G E : Type} [LinearOrder E] (fE : S → E)
    (fA : S → G → S × G) (fAcc : E → E → G → Bool × G)
    (s : S) (g : G) : S × G :=
  let prevEnergy := fE s
  let p := fA s g
  let nextEnergy := fE p.1
  if nextEnergy < prevEnergy then p
  else
    let q := fAcc prevEnergy nextEnergy p.2
    if q.1 then (p.1, q.2) else (s, q.2)

/-- Embedding of `MetropolisMethod<...>::optimize<stepCount>`: invoke
`update` exactly `stepCount` times sequentially. -/
def metropolisOptimize {S G E : Type} [LinearOrder E] (fE : S → E)
    (fA : S → G → S × G) (fAcc : E → E → G → Bool × G) :
    ℕ → S → G → S × G
  | 0, s, g => (s, g)
  | k + 1, s, g =>
    let p := metropolisUpdate fE fA fAcc s g
    metropolisOptimize fE fA fAcc k p.1 p.2

/-- The intermediate trajectory of `MetropolisMethod::optimize`: the
list of states observed after each of the `stepCount` updates. -/
def metropolisTraj {S G E : Type} [LinearOrder E] (fE : S → E)
    (fA : S → G → S × G) (fAcc : E → E → G → Bool × G) :
    ℕ → S → G → List S
  | 0, _, _ => []
  | k + 1, s, g =>
    let p := metropolisUpdate fE fA fAcc s g
    p.1 :: metropolisTraj fE fA fAcc k p.1 p.2

/-- Embedding of `IsingHeatBathMethod::update` with its RNG draws
threaded: the site draw (`randRow`/`randCol` against the class engine)
and the uniform draw `rand01` are abstracted as deterministic draw
functions on the RNG state `G`, in the order the code performs them. -/
noncomputable def heatBathUpdateRng {G : Type} (t : LatticeType)
    (N M : ℕ) (J kb T : ℝ) (drawSite : G → (ℕ × ℕ) × G)
    (drawU : G → ℝ × G) (s : StateGrid) (g : G) : StateGrid × G :=
  let p := drawSite g
  let q := drawU p.2
  (heatBathUpdate t N M J kb T s p.1.1 p.1.2 q.1, q.2)

/-- Embedding of `IsingHeatBathMethod::optimize<stepCount>`: invoke
`update` exactly `stepCount` times sequentially. -/
noncomputable def heatBathOptimizeRng {G : Type} (t : LatticeType)
    (N M : ℕ) (J kb T : ℝ) (drawSite : G → (ℕ × ℕ) × G)
    (drawU : G → ℝ × G) : ℕ → StateGrid → G → StateGrid × G
  | 0, s, g => (s, g)
  | k + 1, s, g =>
    let p := heatBathUpdateRng t N M J kb T drawSite drawU s g
    heatBathOptimizeRng t N M J kb T drawSite drawU k p.1 p.2

/-- The intermediate trajectory of `IsingHeatBathMethod::optimize`. -/
noncomputable def heatBathTraj {G : Type} (t : LatticeType)
    (N M : ℕ) (J kb T : ℝ) (drawSite : G → (ℕ × ℕ) × G)
    (drawU : G → ℝ × G) : ℕ → StateGrid → G → List StateGrid
  | 0, _, _ => []
  | k + 1, s, g =>
    let p := heatBathUpdateRng t N M J kb T drawSite drawU s g
    p.1 :: heatBathTraj t N M J kb T drawSite drawU k p.1 p.2

/-- Validation error of lattice construction, named as in the spec. -/
inductive StateError where
  | invalidDimension
deriving DecidableEq

/-- A constructed lattice value: its dimensions and payload. -/
structure LatticeState where
  rows : ℕ
  cols : ℕ
  grid : StateGrid

/-- Construction of `State<N, M, bool>` filled by the `State(init)`
constructor. The C++ rejects `N = 0` or `M = 0` when the class is
instantiated, through `static_assert(N != 0 && M != 0, "invalid size")`;
we model that compile-time rejection as a constructor returning the
spec's `InvalidDimension` error exactly on the rejected sizes. -/
def mkState (N M : ℕ) (v : Bool) : Except StateError LatticeState :=
  if N ≠ 0 ∧ M ≠ 0 then .ok ⟨N, M, fun _ _ => v⟩
  else .error .invalidDimension

/-- Embedding of `IsingModel::magnetization`: the sum of all spins. -/
def magnetization (N M : ℕ) (state : StateGrid) : ℤ :=
  ∑ r ∈ Finset.range N, ∑ c ∈ Finset.range M, isingSpin (state r c)

/-- Embedding of `IsingModel::averageSpin`:
`magnetization(state) / spinCount` with `spinCount = N * M`
(`static_assert(spinCount != 0, "division by zero")`); the `double`
quotient is embedded as an exact rational. -/
def averageSpin (st : LatticeState) : ℚ :=
  (magnetization st.rows st.cols st.grid : ℚ) / ((st.rows * st.cols : ℕ) : ℚ)

/-- C1 (counterexample): on the 2×2 lattice with exactly one down spin at
`(1,1)` and `J = 1`, `IsingModel::energy` returns `-2`, while the claimed
"every rightward and downward pair" energy is `0` — the code's loops stop
at `rows()-1` and `cols()-1` for both pair directions, so the rightward
pair of the last row and the downward pair of the last column are omitted. -/
theorem energy_all_pairs_cex :
    energy 2 2 1 (fun r c => !(r == 1 && c == 1)) = -2 ∧
    energyAllPairs 2 2 1 (fun r c => !(r == 1 && c == 1)) = 0 ∧
    energy 2 2 1 (fun r c => !(r == 1 && c == 1)) ≠
      energyAllPairs 2 2 1 (fun r c => !(r == 1 && c == 1)) := by
  refine ⟨by decide, by decide, by decide⟩

/-- C1 (amended): `energy(state)` equals `-J` times the sum of
`spin(i)·spin(j)` over the rightward pairs `(r,c)-(r,c+1)` and the
downward pairs `(r,c)-(r+1,c)` restricted to `r < N-1` and `c < M-1`,
each such pair counted exactly once and no periodic pair included;
rightward pairs in the last row and downward pairs in the last column
are not summed. -/
theorem energy_eq_trunc_pairs (N M : ℕ) (J : ℤ) (state : StateGrid) :
    energy N M J state =
      -J * (rightPairsTrunc N M state + downPairsTrunc N M state) := by
  unfold energy rightPairsTrunc downPairsTrunc
  rw [mul_add, Finset.mul_sum, Finset.mul_sum, ← Finset.sum_add_distrib]
  refine Finset.sum_congr rfl fun r _ => ?_
  rw [Finset.mul_sum, Finset.mul_sum, ← Finset.sum_add_distrib]
  refine Finset.sum_congr rfl fun c _ => ?_
  ring

/-- C2 (counterexample): on the 4×4 all-up lattice, `randomAction`
targeting corner site `(0,0)` writes the new value `false` to `(0,0)`,
`(3,0)` and `(0,3)` but leaves `(3,3)` at `true`: the diagonal corner
mirror is *not* set to the new value, because the code's two
`if/else if` mirror writes each copy along a single axis only. -/
theorem randomAction_corner_cex :
    randomActionAt 4 4 (fun _ _ => true) 0 0 0 0 = false ∧
    randomActionAt 4 4 (fun _ _ => true) 0 0 3 0 = false ∧
    randomActionAt 4 4 (fun _ _ => true) 0 0 0 3 = false ∧
    randomActionAt 4 4 (fun _ _ => true) 0 0 3 3 = true := by
  refine ⟨by decide, by decide, by decide, by decide⟩

/-- C2 (amended): on a 4×4 Square lattice, a `proposeMutation`
(`randomAction`) or heat-bath update targeting corner site `(0,0)` also
sets sites `(3,0)` and `(0,3)` — but *not* `(3,3)` — to the same new
value as `(0,0)`, leaving every other site (the diagonal corner `(3,3)`
included) unchanged; an update targeting a non-edge (interior) site
changes only that single site. Both updates write through the same
`writeWithMirrors` sequence (`randomAction` shown here with the flipped
value; the heat-bath link is the structural theorem of C4). -/
theorem randomAction_corner_mirror (s : StateGrid) (v : Bool) :
    (randomActionAt 4 4 s 0 0 = writeWithMirrors 4 4 s 0 0 (!(s 0 0))) ∧
    (writeWithMirrors 4 4 s 0 0 v 0 0 = v ∧
     writeWithMirrors 4 4 s 0 0 v 3 0 = v ∧
     writeWithMirrors 4 4 s 0 0 v 0 3 = v ∧
     (∀ i j, ¬(i = 0 ∧ j = 0) → ¬(i = 3 ∧ j = 0) → ¬(i = 0 ∧ j = 3) →
        writeWithMirrors 4 4 s 0 0 v i j = s i j)) ∧
    (∀ row col, 0 < row → row < 3 → 0 < col → col < 3 →
      writeWithMirrors 4 4 s row col v row col = v ∧
      ∀ i j, ¬(i = row ∧ j = col) →
        writeWithMirrors 4 4 s row col v i j = s i j) := by
  refine ⟨rfl, ⟨rfl, rfl, rfl, ?_⟩, ?_⟩
  · intro i j h1 h2 h3
    simp [writeWithMirrors, setCell, h1, h2, h3]
  · intro row col hr0 hr3 hc0 hc3
    have hr0n : row ≠ 0 := by omega
    have hr3n : row ≠ 3 := by omega
    have hc0n : col ≠ 0 := by omega
    have hc3n : col ≠ 3 := by omega
    constructor
    · simp [writeWithMirrors, setCell, hr0n, hr3n, hc0n, hc3n]
    · intro i j hne
      simp [writeWithMirrors, setCell, hr0n, hr3n, hc0n, hc3n, hne]

/-- Witness for C2's amended theorem at the interior site `(1,2)` of the
all-up 4×4 lattice: the targeted site takes the new value and an
untargeted site is unchanged. -/
theorem randomAction_corner_mirror_witness :
    (0:ℕ) < 1 ∧ (1:ℕ) < 3 ∧ (0:ℕ) < 2 ∧ (2:ℕ) < 3 ∧
    ¬((0:ℕ) = 1 ∧ (0:ℕ) = 2) ∧
    writeWithMirrors 4 4 (fun _ _ => true) 1 2 false 1 2 = false ∧
    writeWithMirrors 4 4 (fun _ _ => true) 1 2 false 0 0 = true := by
  refine ⟨by decide, by decide, by decide, by decide, by decide, ?_, ?_⟩
  · exact ((randomAction_corner_mirror (fun _ _ => true) false).2.2 1 2
      (by decide) (by decide) (by decide) (by decide)).1
  · exact ((randomAction_corner_mirror (fun _ _ => true) false).2.2 1 2
      (by decide) (by decide) (by decide) (by decide)).2 0 0 (by decide)

/-- C5: on lattices with `N > 2` and `M > 2`, every one of the four
topologies' `neighborSpin` functions routes each row/column index through
the explicit periodic fold: the previous index of row/column 0 is
`size - 2` (and not `size - 1`), the next index of the last row/column
`size - 1` is 1, and every other site uses `row ± 1` / `col ± 1`. -/
theorem neighborSpin_fold_indices (N M : ℕ) (hN : 2 < N) (hM : 2 < M) :
    (∀ t state row col,
      neighborSpin t N M state row col =
        neighborSpinFold t N M state row col) ∧
    foldPrev N 0 = N - 2 ∧ foldPrev N 0 ≠ N - 1 ∧
    foldNext N (N - 1) = 1 ∧
    foldPrev M 0 = M - 2 ∧ foldPrev M 0 ≠ M - 1 ∧
    foldNext M (M - 1) = 1 ∧
    (∀ i, i ≠ 0 → foldPrev N i = i - 1) ∧
    (∀ i, i ≠ N - 1 → foldNext N i = i + 1) ∧
    (∀ j, j ≠ 0 → foldPrev M j = j - 1) ∧
    (∀ j, j ≠ M - 1 → foldNext M j = j + 1) := by
  refine ⟨fun t state row col => ?_, by simp [foldPrev],
    by simp [foldPrev]; omega, by simp [foldNext],
    by simp [foldPrev], by simp [foldPrev]; omega, by simp [foldNext],
    fun i hi => by simp [foldPrev, hi],
    fun i hi => by simp [foldNext, hi],
    fun j hj => by simp [foldPrev, hj],
    fun j hj => by simp [foldNext, hj]⟩
  cases t <;> rfl

/-- Witness for C5 at `N = 4`, `M = 5`. -/
theorem neighborSpin_fold_indices_witness :
    2 < 4 ∧ 2 < 5 ∧
    ((∀ t state row col,
        neighborSpin t 4 5 state row col =
          neighborSpinFold t 4 5 state row col) ∧
      foldPrev 4 0 = 4 - 2 ∧ foldPrev 4 0 ≠ 4 - 1 ∧
      foldNext 4 (4 - 1) = 1 ∧
      foldPrev 5 0 = 5 - 2 ∧ foldPrev 5 0 ≠ 5 - 1 ∧
      foldNext 5 (5 - 1) = 1 ∧
      (∀ i, i ≠ 0 → foldPrev 4 i = i - 1) ∧
      (∀ i, i ≠ 4 - 1 → foldNext 4 i = i + 1) ∧
      (∀ j, j ≠ 0 → foldPrev 5 j = j - 1) ∧
      (∀ j, j ≠ 5 - 1 → foldNext 5 j = j + 1)) :=
  ⟨by decide, by decide, neighborSpin_fold_indices 4 5 (by decide) (by decide)⟩

/-- C10: on every lattice degenerate along at least one axis
(`N ≤ 2` or `M ≤ 2`), the four topologies' `neighborSpin` functions all
compute the same value at every site, namely the common degenerate
branch — the folded vertical neighbor pair when `N > 2` plus the folded
horizontal neighbor pair when `M > 2` — and that value is 0 when both
axes are degenerate. -/
theorem degenerate_neighborSpin_agreement (N M : ℕ) (h : N ≤ 2 ∨ M ≤ 2) :
    ∀ state row col,
      squareNeighborSpin N M state row col =
        degenerateNeighborSpin N M state row col ∧
      triangleNeighborSpin N M state row col =
        degenerateNeighborSpin N M state row col ∧
      rhombusNeighborSpin N M state row col =
        degenerateNeighborSpin N M state row col ∧
      hexagonalNeighborSpin N M state row col =
        degenerateNeighborSpin N M state row col ∧
      (N ≤ 2 → M ≤ 2 → degenerateNeighborSpin N M state row col = 0) := by
  have hcond : ¬(2 < N ∧ 2 < M) := by omega
  intro state row col
  refine ⟨?_, ?_, ?_, ?_, ?_⟩
  · rw [squareNeighborSpin, if_neg hcond]; rfl
  · rw [triangleNeighborSpin, if_neg hcond]; rfl
  · rw [rhombusNeighborSpin, if_neg hcond]; rfl
  · rw [hexagonalNeighborSpin, if_neg hcond]; rfl
  · intro hN2 hM2
    have hN : ¬ 2 < N := by omega
    have hM : ¬ 2 < M := by omega
    rw [degenerateNeighborSpin, if_neg hN, if_neg hM, add_zero]

/-- Witness for C10 at the degenerate sizes `N = 2, M = 4` (one axis)
and `N = 2, M = 2` (both axes, value 0). -/
theorem degenerate_neighborSpin_agreement_witness :
    ((2:ℕ) ≤ 2 ∨ (4:ℕ) ≤ 2) ∧
    (squareNeighborSpin 2 4 (fun _ _ => true) 0 1 =
      degenerateNeighborSpin 2 4 (fun _ _ => true) 0 1) ∧
    ((2:ℕ) ≤ 2 ∧
      degenerateNeighborSpin 2 2 (fun _ _ => true) 0 0 = 0) :=
  ⟨Or.inl (by decide),
   (degenerate_neighborSpin_agreement 2 4 (Or.inl (by decide))
      (fun _ _ => true) 0 1).1,
   by decide,
   (degenerate_neighborSpin_agreement 2 2 (Or.inl (by decide))
      (fun _ _ => true) 0 0).2.2.2.2 (by decide) (by decide)⟩

/-- Bound for `Real.tanh`: it is strictly below 1 (helper for C7). -/
theorem real_tanh_lt_one (x : ℝ) : Real.tanh x < 1 := by
  rw [Real.tanh_eq_sinh_div_cosh, div_lt_one (Real.cosh_pos x)]
  exact Real.sinh_lt_cosh x

/-- Bound for `Real.tanh`: it is strictly above -1 (helper for C7). -/
theorem real_neg_one_lt_tanh (x : ℝ) : -1 < Real.tanh x := by
  rw [Real.tanh_eq_sinh_div_cosh, lt_div_iff₀ (Real.cosh_pos x)]
  have h := Real.sinh_lt_cosh (-x)
  rw [Real.sinh_neg, Real.cosh_neg] at h
  linarith

/-- C4: one heat-bath update at a chosen site `(row, col)` with uniform
draw `u` writes, with no accept/reject step, the value
`u < 0.5·(tanh(J/(kb·T)·S) + 1)` — `S` the topology's neighbor spin
sum — to the chosen site and its edge mirrors through the same 4-way
mirror-write sequence (`writeWithMirrors`) used by `proposeMutation`
(`randomAction`, last conjunct). -/
theorem heatBath_update_structure (t : LatticeType) (N M : ℕ)
    (J kb T u : ℝ) (state ps : StateGrid) (row col : ℕ) :
    heatBathUpdate t N M J kb T state row col u =
      writeWithMirrors N M state row col
        (heatBathFlag t N M J kb T state row col u) ∧
    (heatBathFlag t N M J kb T state row col u = true ↔
      u < 0.5 * (Real.tanh (J / (kb * T) *
        ((neighborSpin t N M state row col : ℤ) : ℝ)) + 1)) ∧
    randomActionAt N M ps row col =
      writeWithMirrors N M ps row col (!(ps row col)) := by
  refine ⟨rfl, ?_, rfl⟩
  rw [heatBathFlag, heatBathProb]
  split
  · simp_all
  · simp_all

/-- C7: for all real `S`, `J`, `kb` and all `T > 0`, the heat-bath
threshold `0.5·(tanh(J/(kb·T)·S) + 1)` lies in the closed interval
`[0, 1]`. -/
theorem heatBath_prob_unit_interval (S J kb T : ℝ) (_hT : 0 < T) :
    0 ≤ heatBathProb J kb T S ∧ heatBathProb J kb T S ≤ 1 := by
  have h1 := real_tanh_lt_one (J / (kb * T) * S)
  have h2 := real_neg_one_lt_tanh (J / (kb * T) * S)
  rw [heatBathProb]
  constructor <;> nlinarith

/-- Witness for C7 at `S = 0`, `J = kb = T = 1`. -/
theorem heatBath_prob_unit_interval_witness :
    (0:ℝ) < 1 ∧
    (0 ≤ heatBathProb 1 1 1 0 ∧ heatBathProb 1 1 1 0 ≤ 1) :=
  ⟨one_pos, heatBath_prob_unit_interval 0 1 1 1 one_pos⟩

/-- C6 (counterexample): two distinct `IsingModel` instances (differing
in their coupling `J`) do not own independent streams — after reseeding
"the" model stream to 42, the first value drawn through instance B is 42
if B draws first, but 43 if instance A draws in between: a draw through
another instance of the same class perturbs B's output sequence,
because the engine is one `inline static` member of the class. -/
theorem rng_per_instance_cex :
    (⟨⟨1, 1, 1, 1/10, 1⟩⟩ : IsingModelInst) ≠ ⟨⟨1, 1, 2, 1/10, 1⟩⟩ ∧
    (modelDraw ⟨⟨1, 1, 2, 1/10, 1⟩⟩ (modelSetSeed 42 ⟨5, 6, 7⟩)).1 = 42 ∧
    (modelDraw ⟨⟨1, 1, 2, 1/10, 1⟩⟩
      (modelDraw ⟨⟨1, 1, 1, 1/10, 1⟩⟩ (modelSetSeed 42 ⟨5, 6, 7⟩)).2).1
      = 43 ∧
    (42 : ℕ) ≠ 43 := by
  refine ⟨by decide, rfl, rfl, by decide⟩

/-- Draw sequences through the model class depend only on the model
class's engine state, not on the instance drawing nor on the other
classes' engines (helper for C6). -/
theorem modelDrawSeq_eq_of_modelMt_eq (instA instB : IsingModelInst)
    (k : ℕ) : ∀ w w1 : ClassStatics, w.modelMt = w1.modelMt →
      modelDrawSeq instA k w = modelDrawSeq instB k w1 := by
  induction k with
  | zero => intro w w1 h; rfl
  | succ n ih =>
    intro w w1 h
    simp only [modelDrawSeq, modelDraw, mtNext]
    rw [h]
    exact congrArg (fun l => w1.modelMt :: l) (ih _ _ rfl)

/-- C6 (amended): the pseudorandom streams are per-*class*
`inline static` engines, shared by all instances of the class
(`State`, `IsingModel`, `IsingHeatBathMethod` each own exactly one),
not per-instance; each class's stream is isolated from the *other
classes*: after reseeding the model class's engine, the model draw
sequence is reproduced exactly regardless of the prior engine states,
of which instance performs the draws, and of draws made through the
other classes — which never advance the model engine (and a model draw
never advances theirs). -/
theorem rng_per_class_stream :
    (∀ (instA instB : IsingModelInst) (seed k : ℕ)
        (w w1 : ClassStatics),
      modelDrawSeq instA k (modelSetSeed seed w) =
        modelDrawSeq instB k (modelSetSeed seed w1)) ∧
    (∀ (inst : LatticeStateInst) (w : ClassStatics),
      (stateDraw inst w).2.modelMt = w.modelMt) ∧
    (∀ (inst : HeatBathInst) (w : ClassStatics),
      (heatBathDraw inst w).2.modelMt = w.modelMt) ∧
    (∀ (inst : IsingModelInst) (w : ClassStatics),
      (modelDraw inst w).2.stateMt = w.stateMt ∧
      (modelDraw inst w).2.heatBathMt = w.heatBathMt) :=
  ⟨fun instA instB _seed k _w _w1 =>
      modelDrawSeq_eq_of_modelMt_eq instA instB k _ _ rfl,
   fun _ _ => rfl, fun _ _ => rfl, fun _ _ => ⟨rfl, rfl⟩⟩

/-- C3: one Metropolis update computes `prevE` on the current state and
`nextE` on the mutated trial copy; if `nextE < prevE` it always keeps
the trial (never rejects, first conjunct); otherwise it keeps the trial
exactly when the acceptance draw returns true (second conjunct); and on
rejection the state component is returned completely unchanged (third
conjunct). Stated generically over the template-bound `fE`, `fA`,
`fAcc`, exactly as `MetropolisMethod` is parameterized. -/
theorem metropolis_update_cases {S G E : Type} [LinearOrder E]
    (fE : S → E) (fA : S → G → S × G) (fAcc : E → E → G → Bool × G)
    (s : S) (g : G) :
    (fE (fA s g).1 < fE s →
      (metropolisUpdate fE fA fAcc s g).1 = (fA s g).1) ∧
    (¬ fE (fA s g).1 < fE s →
      (fAcc (fE s) (fE (fA s g).1) (fA s g).2).1 = true →
      (metropolisUpdate fE fA fAcc s g).1 = (fA s g).1) ∧
    (¬ fE (fA s g).1 < fE s →
      (fAcc (fE s) (fE (fA s g).1) (fA s g).2).1 = false →
      (metropolisUpdate fE fA fAcc s g).1 = s) := by
  refine ⟨fun h => ?_, fun h hacc => ?_, fun h hacc => ?_⟩
  · simp [metropolisUpdate, h]
  · simp [metropolisUpdate, h, hacc]
  · simp [metropolisUpdate, h, hacc]

/-- Witness for C3 on the integers: an energy-lowering proposal is kept
without consulting the draw, an energy-raising proposal is rejected when
the draw is false (state unchanged) and kept when the draw is true. -/
theorem metropolis_update_cases_witness :
    (metropolisUpdate (id : ℤ → ℤ) (fun s g => (s - 1, g))
      (fun _ _ g => (false, g)) (5 : ℤ) (0 : ℕ)).1 = 4 ∧
    (metropolisUpdate (id : ℤ → ℤ) (fun s g => (s + 1, g))
      (fun _ _ g => (false, g)) (5 : ℤ) (0 : ℕ)).1 = 5 ∧
    (metropolisUpdate (id : ℤ → ℤ) (fun s g => (s + 1, g))
      (fun _ _ g => (true, g)) (5 : ℤ) (0 : ℕ)).1 = 6 :=
  ⟨(metropolis_update_cases (id : ℤ → ℤ) (fun s g => (s - 1, g))
      (fun _ _ g => (false, g)) 5 0).1 (by decide),
   (metropolis_update_cases (id : ℤ → ℤ) (fun s g => (s + 1, g))
      (fun _ _ g => (false, g)) 5 0).2.2 (by decide) (by decide),
   (metropolis_update_cases (id : ℤ → ℤ) (fun s g => (s + 1, g))
      (fun _ _ g => (true, g)) 5 0).2.1 (by decide) (by decide)⟩

/-- C8: with all randomness owned by the explicitly threaded RNG state,
two `optimize(state, K)` runs started from identical initial lattices
and identical RNG states (as produced by seeding the state, model and
sampler streams identically) yield equal final states, equal final RNG
states, and identical intermediate trajectories at every step — for the
Metropolis sampler and for the heat-bath sampler alike. -/
theorem optimize_deterministic {S G E : Type} [LinearOrder E]
    (fE : S → E) (fA : S → G → S × G) (fAcc : E → E → G → Bool × G)
    (t : LatticeType) (N M : ℕ) (J kb T : ℝ)
    (drawSite : G → (ℕ × ℕ) × G) (drawU : G → ℝ × G) (K : ℕ)
    (s1 s2 : S) (st1 st2 : StateGrid) (g1 g2 : G)
    (hs : s1 = s2) (hst : st1 = st2) (hg : g1 = g2) :
    metropolisOptimize fE fA fAcc K s1 g1 =
      metropolisOptimize fE fA fAcc K s2 g2 ∧
    metropolisTraj fE fA fAcc K s1 g1 =
      metropolisTraj fE fA fAcc K s2 g2 ∧
    heatBathOptimizeRng t N M J kb T drawSite drawU K st1 g1 =
      heatBathOptimizeRng t N M J kb T drawSite drawU K st2 g2 ∧
    heatBathTraj t N M J kb T drawSite drawU K st1 g1 =
      heatBathTraj t N M J kb T drawSite drawU K st2 g2 := by
  subst hs; subst hst; subst hg
  exact ⟨rfl, rfl, rfl, rfl⟩

/-- Witness for C8 at a concrete instantiation (3 steps on ℤ states for
Metropolis, a 4×4 Square-lattice heat-bath run, equal inputs). -/
theorem optimize_deterministic_witness :
    (5 : ℤ) = 5 ∧ (fun _ _ => true : StateGrid) = (fun _ _ => true) ∧
    (0 : ℕ) = 0 ∧
    (metropolisOptimize (id : ℤ → ℤ) (fun s g => (s - 1, g))
        (fun _ _ g => (false, g)) 3 5 (0 : ℕ) =
      metropolisOptimize (id : ℤ → ℤ) (fun s g => (s - 1, g))
        (fun _ _ g => (false, g)) 3 5 (0 : ℕ) ∧
      metropolisTraj (id : ℤ → ℤ) (fun s g => (s - 1, g))
        (fun _ _ g => (false, g)) 3 5 (0 : ℕ) =
      metropolisTraj (id : ℤ → ℤ) (fun s g => (s - 1, g))
        (fun _ _ g => (false, g)) 3 5 (0 : ℕ) ∧
      heatBathOptimizeRng LatticeType.Square 4 4 1 1 1
        (fun g => ((0, 0), g)) (fun g => (0, g)) 3
        (fun _ _ => true) (0 : ℕ) =
      heatBathOptimizeRng LatticeType.Square 4 4 1 1 1
        (fun g => ((0, 0), g)) (fun g => (0, g)) 3
        (fun _ _ => true) (0 : ℕ) ∧
      heatBathTraj LatticeType.Square 4 4 1 1 1
        (fun g => ((0, 0), g)) (fun g => (0, g)) 3
        (fun _ _ => true) (0 : ℕ) =
      heatBathTraj LatticeType.Square 4 4 1 1 1
        (fun g => ((0, 0), g)) (fun g => (0, g)) 3
        (fun _ _ => true) (0 : ℕ)) :=
  ⟨rfl, rfl, rfl,
   optimize_deterministic (id : ℤ → ℤ) (fun s g => (s - 1, g))
     (fun _ _ g => (false, g)) LatticeType.Square 4 4 1 1 1
     (fun g => ((0, 0), g)) (fun g => (0, g)) 3 5 5
     (fun _ _ => true) (fun _ _ => true) 0 0 rfl rfl rfl⟩

/-- C9: constructing a lattice with `rows = 0` or `cols = 0` fails with
the `InvalidDimension` error (the embedded form of the compile-time
`static_assert(N != 0 && M != 0)` rejection), and every successfully
constructed lattice has a nonzero `averageSpin` divisor
`spinCount = N·M`, so `averageSpin` never divides by zero. -/
theorem mkState_invalidDimension (N M : ℕ) (v : Bool) :
    mkState 0 M v = .error .invalidDimension ∧
    mkState N 0 v = .error .invalidDimension ∧
    (∀ st, mkState N M v = .ok st →
      (((st.rows * st.cols : ℕ) : ℚ) ≠ 0 ∧
        averageSpin st =
          (magnetization st.rows st.cols st.grid : ℚ) /
            ((st.rows * st.cols : ℕ) : ℚ))) := by
  refine ⟨by simp [mkState], by simp [mkState], ?_⟩
  intro st h
  rw [mkState] at h
  split at h
  · rename_i hc
    cases h
    refine ⟨?_, rfl⟩
    have : N * M ≠ 0 := by
      rcases hc with ⟨h1, h2⟩
      exact Nat.mul_ne_zero h1 h2
    exact_mod_cast this
  · cases h

/-- Witness for C9: size 0×3 is rejected with `InvalidDimension`, size
2×3 constructs successfully and its `averageSpin` divisor `6` is
nonzero. -/
theorem mkState_invalidDimension_witness :
    mkState 0 3 true = .error .invalidDimension ∧
    mkState 2 3 true = .ok ⟨2, 3, fun _ _ => true⟩ ∧
    ((((⟨2, 3, fun _ _ => true⟩ : LatticeState).rows *
        (⟨2, 3, fun _ _ => true⟩ : LatticeState).cols : ℕ) : ℚ) ≠ 0) :=
  ⟨(mkState_invalidDimension 2 3 true).1, rfl,
   ((mkState_invalidDimension 2 3 true).2.2 ⟨2, 3, fun _ _ => true⟩
     rfl).1⟩
